import Mathlib

/-!
Verification development for the Chub-Search extension (src/index.js).

The JavaScript source is shallowly embedded: the loosely-typed option
objects become association lists of `JVal` (a JS-value type restricted to
the shapes the program actually manipulates), the stateful search / download
orchestration becomes explicit state passing over small trace records, and
the remote endpoints become environment parameters choosing an outcome for
each issued request.
-/

/-- JS values as they occur in the option objects and settings store of the
source: strings, (integral) numbers, NaN, booleans, arrays of strings
(tag lists), and null/undefined (conflated: the program treats them the
same everywhere it can see them). JS numbers are IEEE doubles; the program
only ever stores integral values in them, so they are embedded as `Int`. -/
inductive JVal where
  | vStr : String → JVal
  | vNum : Int → JVal
  | vNaN : JVal
  | vBool : Bool → JVal
  | vArr : List String → JVal
  | vNull : JVal
deriving DecidableEq

/-- A JS object, as the ordered association list of its own properties. -/
abbrev OptMap := List (String × JVal)

/-- Property read (`obj[k]`): first binding wins; a missing property reads
as undefined (`vNull`). -/
def getOpt : OptMap → String → JVal
  | [], _ => JVal.vNull
  | (k', v) :: rest, k => if k' = k then v else getOpt rest k

/-- Property write (`obj[k] = v`): overwrites the first binding in place,
appends when the key is new (JS property-assignment semantics). -/
def setOpt : OptMap → String → JVal → OptMap
  | [], k, v => [(k, v)]
  | (k', v') :: rest, k, v =>
      if k' = k then (k, v) :: rest else (k', v') :: setOpt rest k v

/-- `obj.hasOwnProperty(k)`. -/
def hasOwn : OptMap → String → Bool
  | [], _ => false
  | (k', _) :: rest, k => k' == k || hasOwn rest k

/-- JS truthiness on the embedded values. -/
def truthy : JVal → Bool
  | JVal.vStr s => !s.isEmpty
  | JVal.vNum n => n != 0
  | JVal.vNaN => false
  | JVal.vBool b => b
  | JVal.vArr _ => true
  | JVal.vNull => false

/-- JS `a || b`. -/
def jsOr (a b : JVal) : JVal := if truthy a then a else b

/-- Whether a value is a boolean (`typeof v === 'boolean'`). -/
def isBoolJ : JVal → Bool
  | JVal.vBool _ => true
  | _ => false

/-- Whether a value is an array (`Array.isArray(v)`). -/
def isArrJ : JVal → Bool
  | JVal.vArr _ => true
  | _ => false

/-- The string list of an array value. -/
def arrOf : JVal → List String
  | JVal.vArr l => l
  | _ => []

def jsWhitespace (c : Char) : Bool :=
  c = ' ' || c = '\t' || c = '\n' || c = '\r'

/-- JS `s.slice(0, n)`: the first `n` code units of `s`, embedded per
character (the program's tag strings stay within the basic plane). -/
def jsSlice (s : String) (n : Nat) : String := String.mk (s.toList.take n)

/-- JS `String.prototype.trim`, restricted to the ASCII whitespace the
program can meet. -/
def jsTrim (s : String) : String :=
  String.mk (((s.toList.dropWhile jsWhitespace).reverse.dropWhile jsWhitespace).reverse)

/-- JS `s.split(sep)[0]` for a one-character separator: everything before
its first occurrence (the whole string when it does not occur). -/
def splitFirstSeg (sep : Char) (s : String) : String :=
  String.mk (s.toList.takeWhile (fun c => !(c = sep)))

/-- Whether the first list is a leading segment of the second. -/
def leadsWith : List Char → List Char → Bool
  | [], _ => true
  | _ :: _, [] => false
  | a :: as, b :: bs => a = b && leadsWith as bs

/-- The characters before and after the first occurrence of `sep` in the
input; `none` when `sep` does not occur. -/
def splitFirst (sep : List Char) : List Char → Option (List Char × List Char)
  | [] => none
  | c :: cs =>
    if leadsWith sep (c :: cs) then some ([], List.drop sep.length (c :: cs))
    else
      match splitFirst sep cs with
      | some (pre, post) => some (c :: pre, post)
      | none => none

/-- Accumulate the leading decimal-digit run, `none` when there is none.
This is the digit-consuming core of JS `parseInt(s, 10)`. -/
def takeDigits (cs : List Char) : Option Nat :=
  let ds := cs.takeWhile Char.isDigit
  if ds.isEmpty then none
  else some (ds.foldl (fun acc c => acc * 10 + (c.toNat - 48)) 0)

/-- JS `parseInt(s, 10)`: skip leading whitespace, optional sign, then the
longest run of decimal digits; NaN (here `none`) when no digit follows.
Trailing garbage is ignored: `parseInt("42abc", 10) = 42`. -/
def jsParseInt (s : String) : Option Int :=
  let cs := s.toList.dropWhile jsWhitespace
  match cs with
  | '-' :: rest => (takeDigits rest).map (fun n => -(n : Int))
  | '+' :: rest => (takeDigits rest).map (fun n => (n : Int))
  | _ => (takeDigits cs).map (fun n => (n : Int))

/-- Full-string signed decimal reading, used by the embedding of JS
`Number(...)` on strings (the program only ever feeds it integral
numerals such as the persisted `findCount`; floats and hex are outside
the embedded fragment). -/
def decDigits (cs : List Char) : Option Nat :=
  if !cs.isEmpty && cs.all Char.isDigit then
    some (cs.foldl (fun acc c => acc * 10 + (c.toNat - 48)) 0)
  else none

/-- JS `Number(s)` for a string: trim whitespace, empty means 0, otherwise
a full-string signed decimal numeral (else NaN, here `none`). -/
def jsStrToNumber (s : String) : Option Int :=
  let t := ((s.toList.dropWhile jsWhitespace).reverse.dropWhile jsWhitespace).reverse
  match t with
  | [] => some 0
  | '-' :: rest => (decDigits rest).map (fun n => -(n : Int))
  | '+' :: rest => (decDigits rest).map (fun n => (n : Int))
  | _ => (decDigits t).map (fun n => (n : Int))

/-- JS `Number(v)` on the embedded values (`none` is NaN). -/
def jsToNumber : JVal → Option Int
  | JVal.vNum n => some n
  | JVal.vNaN => none
  | JVal.vBool b => some (cond b 1 0)
  | JVal.vNull => some 0
  | JVal.vStr s => jsStrToNumber s
  | JVal.vArr [] => some 0
  | JVal.vArr [s] => jsStrToNumber s
  | JVal.vArr _ => none

/-- JS `String(v)` / `ToString` on the embedded values, as used when a
value is appended to `URLSearchParams` or passed to `parseInt`. -/
def jvalToString : JVal → String
  | JVal.vStr s => s
  | JVal.vNum n => toString n
  | JVal.vNaN => "NaN"
  | JVal.vBool b => cond b "true" "false"
  | JVal.vArr l => String.intercalate "," l
  | JVal.vNull => "null"

/-- `parseInt(value, 10)` as applied by `buildQueryString` to an option
value: JS first stringifies the argument. For an integral number the
stringify-then-parse round trip is the identity (the program's numeric
options are small integers, whose JS string form is plain decimal). -/
def jsParseIntOfJVal : JVal → Option Int
  | JVal.vNum n => some n
  | JVal.vNaN => none
  | v => jsParseInt (jvalToString v)

-- src/index.js line 11-12
def extensionName : String := "Work-SillyTavern-Chub-Search"

def extensionFolderPath : String := "scripts/extensions/" ++ extensionName ++ "/"

-- src/index.js lines 19-35: the built-in default settings object.
def defaultSettings : OptMap :=
  [("findCount", JVal.vNum 30),
   ("nsfw", JVal.vBool false),
   ("nsfl", JVal.vBool false),
   ("nsfw_only", JVal.vBool false),
   ("require_images", JVal.vBool false),
   ("require_example_dialogues", JVal.vBool false),
   ("require_alternate_greetings", JVal.vBool false),
   ("require_custom_prompt", JVal.vBool false),
   ("require_expressions", JVal.vBool false),
   ("require_lore", JVal.vBool false),
   ("require_lore_embedded", JVal.vBool false),
   ("require_lore_linked", JVal.vBool false),
   ("inclusive_or", JVal.vBool false),
   ("recommended_verified", JVal.vBool false)]

/-- src/index.js lines 50-66 (`loadSettings`): merge every missing default
into `extension_settings.chub`, then coerce `findCount` with
`Number(...) || defaultSettings.findCount`. The argument is the store's
prior contents; the result is the seeded store. -/
def loadSettings (chub : OptMap) : OptMap :=
  let merged := defaultSettings.foldl
    (fun m p => if hasOwn m p.1 then m else setOpt m p.1 p.2) chub
  setOpt merged "findCount"
    (match jsToNumber (getOpt merged "findCount") with
     | some n => if n = 0 then JVal.vNum 30 else JVal.vNum n
     | none => JVal.vNum 30)

/-- One line of the boolean-flag defaulting block of src/index.js lines
222-235: `options.k = typeof options.k === 'boolean' ? options.k : extension_settings.chub.k`. -/
def resolveBoolFlag (chub o : OptMap) (k : String) : OptMap :=
  setOpt o k (match getOpt o k with
    | JVal.vBool b => JVal.vBool b
    | _ => getOpt chub k)

/-- `typeof v === 'boolean' ? v : d` with a literal default `d`. -/
def boolOrDefault (v : JVal) (d : Bool) : JVal :=
  match v with
  | JVal.vBool b => JVal.vBool b
  | _ => JVal.vBool d

/-- The thirteen boolean flags that are defaulted from the settings store
(src/index.js lines 222-235, in source order). -/
def settingsBoolFlags : List String :=
  ["nsfw", "nsfl", "nsfw_only", "require_images", "require_example_dialogues",
   "require_alternate_greetings", "require_custom_prompt", "require_expressions",
   "require_lore", "require_lore_embedded", "require_lore_linked",
   "inclusive_or", "recommended_verified"]

/-- src/index.js lines 220-241: the in-place defaulting prologue of
`fetchCharactersBySearch`, one assignment per source line, against the
settings store `chub` (`extension_settings.chub`). -/
def normalizeOptions (options chub : OptMap) : OptMap :=
  let o := setOpt options "first"
    (jsOr (getOpt options "first") (jsOr (getOpt chub "findCount") (JVal.vNum 30)))
  let o := resolveBoolFlag chub o "nsfw"
  let o := resolveBoolFlag chub o "nsfl"
  let o := resolveBoolFlag chub o "nsfw_only"
  let o := resolveBoolFlag chub o "require_images"
  let o := resolveBoolFlag chub o "require_example_dialogues"
  let o := resolveBoolFlag chub o "require_alternate_greetings"
  let o := resolveBoolFlag chub o "require_custom_prompt"
  let o := resolveBoolFlag chub o "require_expressions"
  let o := resolveBoolFlag chub o "require_lore"
  let o := resolveBoolFlag chub o "require_lore_embedded"
  let o := resolveBoolFlag chub o "require_lore_linked"
  let o := resolveBoolFlag chub o "inclusive_or"
  let o := resolveBoolFlag chub o "recommended_verified"
  let o := setOpt o "sort" (jsOr (getOpt o "sort") (JVal.vStr "download_count"))
  let o := setOpt o "page" (jsOr (getOpt o "page") (JVal.vNum 1))
  let o := setOpt o "asc" (boolOrDefault (getOpt o "asc") false)
  setOpt o "include_forks" (boolOrDefault (getOpt o "include_forks") true)

/-- Association-list lookup on string pairs (also reused for the encoded
query, whose keys are unique in the embedded fragment). -/
def lookupParam : List (String × String) → String → Option String
  | [], _ => none
  | (k', v) :: rest, k => if k' = k then some v else lookupParam rest k

-- src/index.js lines 134-173: the option-name to API-parameter map.
def paramMapList : List (String × String) :=
  [("searchTerm", "search"),
   ("name_like", "name_like"),
   ("first", "first"),
   ("min_users_chatted", "min_users_chatted"),
   ("includeTags", "tags"),
   ("excludeTags", "exclude_tags"),
   ("page", "page"),
   ("sort", "sort"),
   ("asc", "asc"),
   ("include_forks", "include_forks"),
   ("nsfw", "nsfw"),
   ("nsfl", "nsfl"),
   ("nsfw_only", "nsfw_only"),
   ("require_images", "require_images"),
   ("require_example_dialogues", "require_example_dialogues"),
   ("require_alternate_greetings", "require_alternate_greetings"),
   ("require_custom_prompt", "require_custom_prompt"),
   ("max_days_ago", "max_days_ago"),
   ("exclude_mine", "exclude_mine"),
   ("only_mine", "only_mine"),
   ("min_tokens", "min_tokens"),
   ("max_tokens", "max_tokens"),
   ("require_expressions", "require_expressions"),
   ("require_lore", "require_lore"),
   ("mine_first", "mine_first"),
   ("require_lore_embedded", "require_lore_embedded"),
   ("require_lore_linked", "require_lore_linked"),
   ("my_favorites", "my_favorites"),
   ("topics", "topics"),
   ("excludetopics", "excludetopics"),
   ("creator_id", "creator_id"),
   ("username", "username"),
   ("inclusive_or", "inclusive_or"),
   ("recommended_verified", "recommended_verified"),
   ("min_tags", "min_tags"),
   ("min_ai_rating", "min_ai_rating"),
   ("language", "language")]

def paramMap (k : String) : Option String := lookupParam paramMapList k

-- API keys given array/number special handling in buildQueryString
-- (src/index.js lines 179 and 189).
def tagApiKeys : List String := ["tags", "exclude_tags", "topics", "excludetopics"]

def numericApiKeys : List String :=
  ["min_tokens", "max_tokens", "min_tags", "min_users_chatted", "max_days_ago",
   "creator_id", "min_ai_rating"]

/-- The pairs appended to `params` by one iteration of the
`for (const [optionKey, value] of Object.entries(options))` loop of
`buildQueryString` (src/index.js lines 175-204): the entry is dropped when
the key is unmapped or the value is null/undefined/empty-string, and
otherwise the tag-list, numeric, boolean, or verbatim rule applies, in
source order. Each iteration only ever appends to `params`, so the loop
body is exactly `params ++ entryParams optionKey value`. -/
def entryParams (optionKey : String) (value : JVal) : List (String × String) :=
  match paramMap optionKey with
  | none => []
  | some apiKey =>
    if value = JVal.vNull || value = JVal.vStr "" then []
    else if tagApiKeys.contains apiKey && isArrJ value then
      let l := arrOf value
      if l.length > 0 then
        let tagsString :=
          jsSlice (String.intercalate "," (l.filter (fun t => !t.isEmpty))) 500
        if tagsString = "" then [] else [(apiKey, tagsString)]
      else []
    else if numericApiKeys.contains apiKey then
      match jsParseIntOfJVal value with
      | some n => [(apiKey, toString n)]
      | none => []
    else
      match value with
      | JVal.vBool b => [(apiKey, cond b "true" "false")]
      | _ => [(apiKey, jvalToString value)]

/-- src/index.js lines 130-210 (`buildQueryString`): fold the loop body over
the option object's entries. The result is the ordered key/value list that
`URLSearchParams` would serialize. -/
def buildQueryString (options : OptMap) : List (String × String) :=
  options.foldl (fun params p => params ++ entryParams p.1 p.2) []

/-- src/index.js lines 674-677 (`getInt`): read a form field's string value;
an empty or missing value yields null, otherwise `parseInt(val, 10)`
(which is NaN, not null, when no digit prefix exists). -/
def getInt (val : Option String) : JVal :=
  match val with
  | none => JVal.vNull
  | some v =>
    if v = "" then JVal.vNull
    else match jsParseInt v with
      | some n => JVal.vNum n
      | none => JVal.vNaN

/-- A search-result node as the normalizer reads it (src/index.js lines
282-303). `none` stands for an absent field. The remote payload may carry
a dedicated `author` field; the source never reads it, which the theorems
below make explicit. -/
structure Node where
  name : Option String
  tagline : Option String
  avatar_url : Option String
  avatar : Option String
  fullPath : Option String
  topics : Option (List String)
  author : Option String
deriving DecidableEq

/-- The `data` wrapper some responses use (src/index.js line 271). -/
structure DataField where
  nodes : Option (List Node)
deriving DecidableEq

/-- A successfully parsed search-response body. -/
structure ResponseBody where
  nodes : Option (List Node)
  data : Option DataField
deriving DecidableEq

/-- The canonical record built per node (src/index.js lines 294-302).
`fullPath` is `node.fullPath` passed through verbatim, hence still
optional. -/
structure CharacterRecord where
  url : String
  description : String
  name : String
  fullPath : Option String
  tags : List String
  author : String
deriving DecidableEq

/-- JS `v || d` where `v` is an optional string field: absent and empty
strings are both falsy. -/
def jsOrStr (v : Option String) (d : String) : String :=
  match v with
  | some s => if s = "" then d else s
  | none => d

/-- The `nodes.map(node => ...)` body of src/index.js lines 282-303. -/
def normalizeNode (n : Node) : CharacterRecord :=
  { url := jsOrStr n.avatar_url (jsOrStr n.avatar (extensionFolderPath ++ "placeholder.png"))
  , description := jsOrStr n.tagline "No description."
  , name := jsOrStr n.name "Unnamed Character"
  , fullPath := n.fullPath
  , tags := match n.topics with
      | some ts => ts
      | none => []
  , author := match n.fullPath with
      | some s => if s = "" then "Unknown Author" else splitFirstSeg '/' s
      | none => "Unknown Author" }

/-- src/index.js line 271: `searchData.nodes || (searchData.data ?
searchData.data.nodes : null)`. An array — even an empty one — is truthy,
so a present top-level `nodes` always wins. -/
def findNodes (b : ResponseBody) : Option (List Node) :=
  match b.nodes with
  | some ns => some ns
  | none =>
    match b.data with
    | some d => d.nodes
    | none => none

/-- src/index.js lines 264-305: node lookup, the empty/missing early
return, and the per-node mapping. -/
def normalizeResponse (b : ResponseBody) : List CharacterRecord :=
  match findNodes b with
  | none => []
  | some ns => if ns.isEmpty then [] else ns.map normalizeNode

/-- Outcome of the remote search round trip, chosen by the environment:
a 2xx response with a parsed body, a non-2xx response (the flag records
whether its error body parses as JSON, which only changes the toast
message), or a throw during fetch/parse. -/
inductive FetchOutcome where
  | ok : ResponseBody → FetchOutcome
  | httpError : Bool → FetchOutcome
  | throws : FetchOutcome
deriving DecidableEq

/-- The popup-scoped mutable UI state the orchestrator touches: the
`searching` CSS flag on the list container and the running count of
`toastr.error` calls. -/
structure UIState where
  searching : Bool
  errorCalls : Nat
deriving DecidableEq

/-- src/index.js lines 218-312 (`fetchCharactersBySearch`): default the
options from the settings store, build the query, issue the request
(the environment `env` picks the outcome for the issued query), and
handle the non-2xx / throw / success paths. -/
def fetchCharactersBySearch (env : List (String × String) → FetchOutcome)
    (options chub : OptMap) (s : UIState) : List CharacterRecord × UIState :=
  let normalized := normalizeOptions options chub
  match env (buildQueryString normalized) with
  | FetchOutcome.ok body => (normalizeResponse body, s)
  | FetchOutcome.httpError errJson =>
      match errJson with
      | true => ([], { s with errorCalls := s.errorCalls + 1 })
      | false => ([], { s with errorCalls := s.errorCalls + 1 })
  | FetchOutcome.throws => ([], { s with errorCalls := s.errorCalls + 1 })

/-- src/index.js lines 320-336 (`searchCharacters`): set the `searching`
flag, run the fetch, clear the flag, return the characters. The embedding
takes the list container as mounted; when it is null the source touches
no flag at all, so there is nothing to leave stuck. -/
def searchCharacters (env : List (String × String) → FetchOutcome)
    (options chub : OptMap) (s : UIState) : List CharacterRecord × UIState :=
  let s1 : UIState := { s with searching := true }
  let r := fetchCharactersBySearch env options chub s1
  (r.1, { r.2 with searching := false })

/-- Whether an outcome takes one of the two failure paths. -/
def isFailureOutcome : FetchOutcome → Bool
  | FetchOutcome.ok _ => false
  | FetchOutcome.httpError _ => true
  | FetchOutcome.throws => true

/-- A successful (2xx) download response: the two headers the code reads
and the binary body (kept abstract as a string). -/
structure DlSuccess where
  customContentType : Option String
  contentDisposition : Option String
  blob : String
deriving DecidableEq

/-- Observable effects of one `downloadCharacter` call: the body sent to
the primary endpoint, the body sent to the legacy endpoint when it was
attempted, the failure toast (with its manual-fallback click action),
warning toasts, and the payload/filename handed to `processDroppedFiles`. -/
structure DlTrace where
  primaryReqBody : String
  legacyReqBody : Option String
  failInfoCalls : Nat
  warningCalls : Nat
  ingested : Option (String × String)
deriving DecidableEq

/-- `request.headers.get('Content-Disposition').split('filename=')[1]
.replace(/"/g, '')` (src/index.js line 99): `none` when there is no
second segment, in which case the JS code throws a TypeError. -/
def extractFileName (cd : String) : Option String :=
  match splitFirst ("filename=".toList) cd.toList with
  | none => none
  | some (_, post) =>
    let second :=
      match splitFirst ("filename=".toList) post with
      | some (pre, _) => pre
      | none => post
    some (String.mk (second.filter (fun c => !(c = '"'))))

/-- The success tail of `downloadCharacter` (src/index.js lines 97-110):
read the two headers, build the file, and dispatch on the content-type
discriminator. `none` models the uncaught TypeError thrown when the
Content-Disposition header is missing or carries no `filename=`. -/
def finishDownload (t : DlTrace) (r : DlSuccess) : Option DlTrace :=
  match r.contentDisposition with
  | none => none
  | some cd =>
    match extractFileName cd with
    | none => none
    | some fileName =>
      if r.customContentType = some "character" then
        some { t with ingested := some (r.blob, fileName) }
      else
        some { t with warningCalls := 1 }

/-- src/index.js lines 73-111 (`downloadCharacter`): trim the input, POST
it to the primary import endpoint, retry the legacy endpoint with the
same body on a non-ok response, toast (with a click action) and return
when both fail, and otherwise process the successful response. The
environment supplies each endpoint's response (`none` = non-ok). -/
def downloadCharacter (input : String) (primary legacy : Option DlSuccess) :
    Option DlTrace :=
  let url := jsTrim input
  let base : DlTrace :=
    { primaryReqBody := url, legacyReqBody := none,
      failInfoCalls := 0, warningCalls := 0, ingested := none }
  match primary with
  | some r => finishDownload base r
  | none =>
    let base := { base with legacyReqBody := some url }
    match legacy with
    | some r => finishDownload base r
    | none => some { base with failInfoCalls := 1 }

/-- Modelled from the spec: the "strict base-10 integer parser" the spec
postulates for numeric filter fields accepts exactly an optional sign
followed by one or more decimal digits spanning the entire string, and
fails on anything else. (The source instead uses JS `parseInt`; the
comparison is the point of the C3 theorems.) -/
def strictParseInt (s : String) : Option Int :=
  match s.toList with
  | [] => none
  | '-' :: rest => (decDigits rest).map (fun n => -(n : Int))
  | '+' :: rest => (decDigits rest).map (fun n => (n : Int))
  | cs => (decDigits cs).map (fun n => (n : Int))

/-- The six numeric filter fields of the claim (each maps to the API key of
the same name). -/
def numericOptionKeys : List String :=
  ["min_tokens", "max_tokens", "min_tags", "min_users_chatted", "max_days_ago",
   "min_ai_rating"]

/-- The four tag-list option keys of the claim, mapped by `paramMap` to
`tags`, `exclude_tags`, `topics`, `excludetopics` respectively. -/
def tagOptionKeys : List String :=
  ["includeTags", "excludeTags", "topics", "excludetopics"]

/-- The option keys that hold a resolved boolean in a canonical options
record, each mapped by `paramMap` to the API key of the same name. -/
def boolFlagOptionKeys : List String :=
  ["nsfw", "nsfl", "nsfw_only", "require_images", "require_example_dialogues",
   "require_alternate_greetings", "require_custom_prompt", "require_expressions",
   "require_lore", "require_lore_embedded", "require_lore_linked",
   "inclusive_or", "recommended_verified", "include_forks", "asc"]

/-- The spec's worked example node, `\x7b fullPath: "alice/my-char",
name: "X" \x7d`, with no avatar and no tagline. -/
def exampleNode : Node :=
  { name := some "X"
  , tagline := none
  , avatar_url := none
  , avatar := none
  , fullPath := some "alice/my-char"
  , topics := none
  , author := none }

/-- A response node carrying no `fullPath` field at all. -/
def bareNode : Node :=
  { name := some "X"
  , tagline := none
  , avatar_url := none
  , avatar := none
  , fullPath := none
  , topics := none
  , author := none }

/-- A successful download response of the known content kind, with a
quoted filename in its Content-Disposition header. -/
def exampleDlSuccess : DlSuccess :=
  { customContentType := some "character"
  , contentDisposition := some "attachment; filename=\"alice.png\""
  , blob := "PNGDATA" }

theorem getOpt_setOpt (m : OptMap) (k k' : String) (v : JVal) :
    getOpt (setOpt m k' v) k = if k' = k then v else getOpt m k := by
  induction m with
  | nil => simp [setOpt, getOpt]
  | cons p rest ih =>
    obtain ⟨pk, pv⟩ := p
    by_cases h1 : pk = k' <;> by_cases h2 : pk = k <;> subst_vars <;>
      (simp_all [setOpt, getOpt]; try simp [if_neg (Ne.symm h1)])

theorem foldl_append_init (e : String × JVal → List (String × String))
    (l : OptMap) (acc : List (String × String)) :
    l.foldl (fun ps p => ps ++ e p) acc = acc ++ l.foldl (fun ps p => ps ++ e p) [] := by
  induction l generalizing acc with
  | nil => simp
  | cons p rest ih =>
    simp only [List.foldl_cons, List.nil_append]
    rw [ih (acc ++ e p), ih (e p), List.append_assoc]

theorem buildQueryString_cons (p : String × JVal) (rest : OptMap) :
    buildQueryString (p :: rest) = entryParams p.1 p.2 ++ buildQueryString rest := by
  unfold buildQueryString
  simp only [List.foldl_cons, List.nil_append]
  exact foldl_append_init (fun p => entryParams p.1 p.2) rest (entryParams p.1 p.2)

theorem buildQueryString_singleton (k : String) (v : JVal) :
    buildQueryString [(k, v)] = entryParams k v := by
  rw [buildQueryString_cons]
  simp [buildQueryString]

/-- Claim C1, amended part: for each of the thirteen boolean requirement
flags that have a built-in default (`include_forks` excluded), an
explicitly boolean raw value wins, and otherwise the normalized value is
the pre-seeded settings store's current value for that flag. -/
theorem normalize_settings_flag (k : String) (hk : k ∈ settingsBoolFlags)
    (raw c0 : OptMap) :
    getOpt (normalizeOptions raw (loadSettings c0)) k =
      (match getOpt raw k with
       | JVal.vBool b => JVal.vBool b
       | _ => getOpt (loadSettings c0) k) := by
  fin_cases hk <;>
    simp [normalizeOptions, resolveBoolFlag, boolOrDefault, getOpt_setOpt]

/-- Concrete instantiation of `normalize_settings_flag` at the `nsfw` flag
with an explicitly boolean raw value. -/
theorem normalize_settings_flag_witness :
    getOpt (normalizeOptions [("nsfw", JVal.vBool true)] (loadSettings [])) "nsfw" =
      (match getOpt [("nsfw", JVal.vBool true)] "nsfw" with
       | JVal.vBool b => JVal.vBool b
       | _ => getOpt (loadSettings []) "nsfw") :=
  normalize_settings_flag "nsfw" (by decide) [("nsfw", JVal.vBool true)] []

/-- Claim C1 as stated is false for `include_forks`: with the store
pre-seeded with the built-in defaults (and here even explicitly persisting
`include_forks := false`) and no explicit boolean in the raw options,
normalization yields `true`, not the store's current value `false`. -/
theorem include_forks_breaks_claim :
    getOpt (normalizeOptions [] (loadSettings [("include_forks", JVal.vBool false)]))
        "include_forks" = JVal.vBool true ∧
    getOpt (loadSettings [("include_forks", JVal.vBool false)]) "include_forks"
      = JVal.vBool false := by
  constructor <;> rfl

/-- Claim C10: when the raw options do not explicitly supply a boolean
`include_forks`, normalization resolves it to `true` whatever the settings
store holds, and `include_forks` is the only one of the fourteen boolean
flags with no entry in the built-in default settings. -/
theorem include_forks_defaulting (raw chub : OptMap)
    (h : isBoolJ (getOpt raw "include_forks") = false) :
    getOpt (normalizeOptions raw chub) "include_forks" = JVal.vBool true ∧
    hasOwn defaultSettings "include_forks" = false ∧
    settingsBoolFlags.all (fun k => hasOwn defaultSettings k) = true := by
  refine ⟨?_, by decide, by decide⟩
  simp [normalizeOptions, resolveBoolFlag, boolOrDefault, getOpt_setOpt]
  rcases hv : getOpt raw "include_forks" <;> simp_all [isBoolJ]

/-- Concrete instantiation of `include_forks_defaulting` on empty raw
options and an empty settings store. -/
theorem include_forks_defaulting_witness :
    getOpt (normalizeOptions [] []) "include_forks" = JVal.vBool true ∧
    hasOwn defaultSettings "include_forks" = false ∧
    settingsBoolFlags.all (fun k => hasOwn defaultSettings k) = true :=
  include_forks_defaulting [] [] (by decide)

/-- Claim C3, amended part: each numeric filter field is parsed with JS
`parseInt` semantics (optional sign, then the longest leading run of
decimal digits; trailing garbage ignored). An empty string, an undefined
field, or a string with no digit prefix leaves the key out of the encoded
query — never encoded as zero — while a parse success yields the key with
the parsed integer, both when the form value flows through `getInt` and
when a string reaches `buildQueryString` directly. -/
theorem numeric_field_encoding (k : String) (hk : k ∈ numericOptionKeys)
    (s : String) :
    lookupParam (buildQueryString [(k, getInt (some s))]) k =
      (if s = "" then none else (jsParseInt s).map (fun n => toString n)) ∧
    lookupParam (buildQueryString [(k, getInt none)]) k = none ∧
    lookupParam (buildQueryString [(k, JVal.vStr s)]) k =
      (if s = "" then none else (jsParseInt s).map (fun n => toString n)) := by
  fin_cases hk <;>
  · by_cases hs : s = ""
    · subst hs; decide
    · rcases hp : jsParseInt s with _ | n <;>
        simp [buildQueryString_singleton, entryParams, getInt, jsParseIntOfJVal,
          jvalToString, paramMap, paramMapList, lookupParam, tagApiKeys,
          numericApiKeys, List.contains, hs, hp]

/-- Concrete instantiation of `numeric_field_encoding` at `min_tokens`
with the input string "42". -/
theorem numeric_field_encoding_witness :
    lookupParam (buildQueryString [("min_tokens", getInt (some "42"))]) "min_tokens" =
      (if "42" = "" then none else (jsParseInt "42").map (fun n => toString n)) ∧
    lookupParam (buildQueryString [("min_tokens", getInt none)]) "min_tokens" = none ∧
    lookupParam (buildQueryString [("min_tokens", JVal.vStr "42")]) "min_tokens" =
      (if "42" = "" then none else (jsParseInt "42").map (fun n => toString n)) :=
  numeric_field_encoding "min_tokens" (by decide) "42"

/-- Claim C3 as stated is false: it demands a strict base-10 parser, under
which "42abc" is a parse failure whose key must be omitted, yet the code
emits `min_tokens=42` for it because JS `parseInt` ignores trailing
garbage. -/
theorem numeric_parser_not_strict :
    strictParseInt "42abc" = none ∧
    lookupParam (buildQueryString [("min_tokens", JVal.vStr "42abc")]) "min_tokens"
      = some "42" := by
  decide

set_option maxRecDepth 4000 in
/-- Claim C5: for an array-valued tag-list option, the encoder keeps the
non-empty tags, joins them with commas, truncates the join to 500
characters, and emits the mapped key exactly when the result is non-empty;
an empty array or an array of empty tags yields no key. -/
theorem tag_list_encoding (k : String) (hk : k ∈ tagOptionKeys) (l : List String) :
    lookupParam (buildQueryString [(k, JVal.vArr l)]) ((paramMap k).getD "") =
      (if jsSlice (String.intercalate "," (l.filter (fun t => !t.isEmpty))) 500 = ""
       then none
       else some (jsSlice (String.intercalate "," (l.filter (fun t => !t.isEmpty))) 500)) := by
  fin_cases hk <;>
  · rcases l with _ | ⟨t, ts⟩
    · decide
    · simp only [buildQueryString_singleton, entryParams, paramMap, paramMapList,
        lookupParam, tagApiKeys, numericApiKeys, isArrJ, arrOf]
      simp only [List.contains_cons, List.contains_nil]
      simp
      split <;> simp_all [lookupParam]

/-- Concrete instantiation of `tag_list_encoding` on `includeTags` with a
tag list containing an empty tag. -/
theorem tag_list_encoding_witness :
    lookupParam (buildQueryString
        [("includeTags", JVal.vArr ["fantasy", "", "elf"])]) ((paramMap "includeTags").getD "") =
      (if jsSlice (String.intercalate ","
            ((["fantasy", "", "elf"] : List String).filter (fun t => !t.isEmpty))) 500 = ""
       then none
       else some (jsSlice (String.intercalate ","
            ((["fantasy", "", "elf"] : List String).filter (fun t => !t.isEmpty))) 500)) :=
  tag_list_encoding "includeTags" (by decide) ["fantasy", "", "elf"]

theorem entryParams_bool (k : String) (hk : k ∈ boolFlagOptionKeys) (b : Bool) :
    entryParams k (JVal.vBool b) = [(k, cond b "true" "false")] := by
  fin_cases hk <;> cases b <;> rfl

/-- Claim C6: whenever a boolean flag key carries a resolved boolean in the
options record, the encoded query contains that key with the literal value
`true` or `false` — a resolved `false` is never dropped. -/
theorem boolean_flag_encoding (options : OptMap) (k : String) (b : Bool)
    (hk : k ∈ boolFlagOptionKeys) (hmem : (k, JVal.vBool b) ∈ options) :
    (k, cond b "true" "false") ∈ buildQueryString options := by
  induction options with
  | nil => cases hmem
  | cons p rest ih =>
    rw [buildQueryString_cons]
    rcases List.mem_cons.mp hmem with he | hr
    · rw [← he]
      exact List.mem_append_left _
        (by rw [entryParams_bool k hk b]; exact List.mem_singleton_self _)
    · exact List.mem_append_right _ (ih hr)

/-- Concrete instantiation of `boolean_flag_encoding`: a resolved
`nsfw := false` is emitted as `nsfw=false`. -/
theorem boolean_flag_encoding_witness :
    ("nsfw", cond false "true" "false") ∈ buildQueryString [("nsfw", JVal.vBool false)] :=
  boolean_flag_encoding [("nsfw", JVal.vBool false)] "nsfw" false (by decide) (by decide)

/-- Claim C2: for every search whose remote call returns a non-2xx status
or throws during fetch/parse, the search returns an empty sequence (no
exception escapes: the embedding is total on these outcomes), makes
exactly one notifier error call, and the `searching` flag set on entry is
cleared on exit; the flag is likewise cleared on the success and
empty-result paths, where no error call is made. -/
theorem search_failure_contract (env : List (String × String) → FetchOutcome)
    (options chub : OptMap) (s : UIState) :
    (searchCharacters env options chub s).2.searching = false ∧
    (isFailureOutcome (env (buildQueryString (normalizeOptions options chub))) = true →
      (searchCharacters env options chub s).1 = [] ∧
      (searchCharacters env options chub s).2.errorCalls = s.errorCalls + 1) ∧
    (isFailureOutcome (env (buildQueryString (normalizeOptions options chub))) = false →
      (searchCharacters env options chub s).2.errorCalls = s.errorCalls) := by
  rcases ho : env (buildQueryString (normalizeOptions options chub)) with b | ej | _
  · simp [searchCharacters, fetchCharactersBySearch, ho, isFailureOutcome]
  · rcases ej <;> simp [searchCharacters, fetchCharactersBySearch, ho, isFailureOutcome]
  · simp [searchCharacters, fetchCharactersBySearch, ho, isFailureOutcome]

/-- Concrete instantiation of `search_failure_contract` on an environment
that throws during the fetch. -/
theorem search_failure_contract_witness :
    (searchCharacters (fun _ => FetchOutcome.throws) [] [] ⟨false, 0⟩).1 = [] ∧
    (searchCharacters (fun _ => FetchOutcome.throws) [] [] ⟨false, 0⟩).2.errorCalls = 0 + 1 :=
  (search_failure_contract (fun _ => FetchOutcome.throws) [] [] ⟨false, 0⟩).2.1 rfl

/-- Claim C7: the node list of a parsed body is looked up at the top-level
`nodes` key first and under `data.nodes` otherwise; when no list is found
or the found list is empty the search yields the empty record sequence
with no error reported, and in particular both a body with `nodes := []`
and the empty body yield the empty sequence. -/
theorem response_nodes_policy (b : ResponseBody) :
    (∀ ns, b.nodes = some ns → findNodes b = some ns) ∧
    (b.nodes = none →
      findNodes b = (match b.data with
        | some d => d.nodes
        | none => none)) ∧
    ((findNodes b = none ∨ findNodes b = some []) → normalizeResponse b = []) ∧
    (∀ (env : List (String × String) → FetchOutcome) (options chub : OptMap)
        (s : UIState),
      env (buildQueryString (normalizeOptions options chub)) = FetchOutcome.ok b →
      (fetchCharactersBySearch env options chub s).1 = normalizeResponse b ∧
      (fetchCharactersBySearch env options chub s).2.errorCalls = s.errorCalls) ∧
    normalizeResponse { nodes := some [], data := none } = [] ∧
    normalizeResponse { nodes := none, data := none } = [] := by
  refine ⟨?_, ?_, ?_, ?_, by decide, by decide⟩
  · intro ns h; simp [findNodes, h]
  · intro h; simp [findNodes, h]
  · rintro (h | h) <;> simp [normalizeResponse, h]
  · intro env options chub s h
    simp [fetchCharactersBySearch, h]

/-- Concrete instantiation of `response_nodes_policy` at the empty body. -/
theorem response_nodes_policy_witness :
    normalizeResponse { nodes := none, data := none } = [] :=
  (response_nodes_policy { nodes := none, data := none }).2.2.1 (Or.inl rfl)

/-- Claim C4: per response node, the name defaults to "Unnamed Character"
when absent, the description to "No description." when the node has no
tagline, the image URL tries `avatar_url`, then `avatar`, then the local
placeholder path, and the author is derived from `fullPath` (the segment
before the first '/', "Unknown Author" when `fullPath` is absent), never
read from the node's own author field. -/
theorem node_field_fallbacks (n : Node) :
    (n.name = none → (normalizeNode n).name = "Unnamed Character") ∧
    (n.tagline = none → (normalizeNode n).description = "No description.") ∧
    ((normalizeNode n).url =
      (match n.avatar_url with
       | some s =>
         if s = "" then
           (match n.avatar with
            | some t => if t = "" then extensionFolderPath ++ "placeholder.png" else t
            | none => extensionFolderPath ++ "placeholder.png")
         else s
       | none =>
         match n.avatar with
         | some t => if t = "" then extensionFolderPath ++ "placeholder.png" else t
         | none => extensionFolderPath ++ "placeholder.png")) ∧
    (∀ a : Option String, (normalizeNode { n with author := a }).author =
      (match n.fullPath with
       | some s => if s = "" then "Unknown Author" else splitFirstSeg '/' s
       | none => "Unknown Author")) := by
  refine ⟨fun h => ?_, fun h => ?_, ?_, fun a => ?_⟩
  · simp [normalizeNode, jsOrStr, h]
  · simp [normalizeNode, jsOrStr, h]
  · rcases hu : n.avatar_url with _ | s <;> rcases ha : n.avatar with _ | t <;>
      simp [normalizeNode, jsOrStr, hu, ha]
  · simp [normalizeNode]

/-- Concrete instantiation of `node_field_fallbacks` on the spec's example
node, also showing that a supplied author field is ignored. -/
theorem node_field_fallbacks_witness :
    (normalizeNode exampleNode).description = "No description." ∧
    (normalizeNode { exampleNode with author := some "mallory" }).author =
      (match exampleNode.fullPath with
       | some s => if s = "" then "Unknown Author" else splitFirstSeg '/' s
       | none => "Unknown Author") := by
  constructor
  · exact (node_field_fallbacks exampleNode).2.1 rfl
  · exact (node_field_fallbacks exampleNode).2.2.2 (some "mallory")

/-- Claim C9, amended part: the normalizer copies `fullPath` verbatim from
the node, so the record's `fullPath` is a non-empty string exactly when
the node supplied one. -/
theorem record_fullPath_passthrough (n : Node) :
    (normalizeNode n).fullPath = n.fullPath := rfl

/-- Claim C9 as stated is false: a node carrying no `fullPath` field still
produces a record, and that record's `fullPath` is absent rather than a
non-empty string usable as a download key. -/
theorem record_without_fullPath :
    (normalizeResponse { nodes := some [bareNode], data := none }).map
        (fun r => r.fullPath) = [none] := by
  decide

theorem finishDownload_fields (t : DlTrace) (r : DlSuccess) (t' : DlTrace)
    (h : finishDownload t r = some t') :
    t'.primaryReqBody = t.primaryReqBody ∧ t'.legacyReqBody = t.legacyReqBody ∧
    t'.failInfoCalls = t.failInfoCalls := by
  unfold finishDownload at h
  split at h
  · cases h
  · split at h
    · cases h
    · split at h <;> (cases h; simp)

/-- Claim C8: the primary import endpoint is attempted first and the legacy
endpoint only after a primary failure, with the same trimmed body; when
both fail, a single notification carrying the manual-fallback click action
is issued and no exception escapes; a success from either endpoint whose
content-type discriminator is 'character' hands the binary payload and the
extracted filename to the ingestion collaborator; any other discriminator
yields one "unknown content type" warning and no ingestion — again on
both the primary-success and legacy-success paths. -/
theorem download_fallback_contract (input : String)
    (primary legacy : Option DlSuccess) :
    (primary = none → legacy = none →
      downloadCharacter input primary legacy =
        some { primaryReqBody := jsTrim input, legacyReqBody := some (jsTrim input),
               failInfoCalls := 1, warningCalls := 0, ingested := none }) ∧
    (∀ r, primary = some r →
      ∀ t, downloadCharacter input primary legacy = some t →
        t.legacyReqBody = none ∧ t.primaryReqBody = jsTrim input) ∧
    (primary = none →
      ∀ t, downloadCharacter input primary legacy = some t →
        t.legacyReqBody = some (jsTrim input) ∧ t.primaryReqBody = jsTrim input) ∧
    (∀ r fn, (primary = some r ∨ (primary = none ∧ legacy = some r)) →
      r.customContentType = some "character" →
      Option.bind r.contentDisposition extractFileName = some fn →
      downloadCharacter input primary legacy =
        some { primaryReqBody := jsTrim input,
               legacyReqBody := match primary with
                 | some _ => none
                 | none => some (jsTrim input),
               failInfoCalls := 0, warningCalls := 0,
               ingested := some (r.blob, fn) }) ∧
    (∀ r, (primary = some r ∨ (primary = none ∧ legacy = some r)) →
      r.customContentType ≠ some "character" →
      (∀ t, downloadCharacter input primary legacy = some t →
        t.warningCalls = 1 ∧ t.ingested = none ∧ t.failInfoCalls = 0) ∧
      (∀ fn, Option.bind r.contentDisposition extractFileName = some fn →
        downloadCharacter input primary legacy =
          some { primaryReqBody := jsTrim input,
                 legacyReqBody := match primary with
                   | some _ => none
                   | none => some (jsTrim input),
                 failInfoCalls := 0, warningCalls := 1,
                 ingested := none })) := by
  refine ⟨?_, ?_, ?_, ?_, ?_⟩
  · rintro rfl rfl
    rfl
  · rintro r rfl t ht
    simp only [downloadCharacter] at ht
    have hf := finishDownload_fields _ r t ht
    exact ⟨hf.2.1, hf.1⟩
  · rintro rfl t ht
    simp only [downloadCharacter] at ht
    rcases legacy with _ | r
    · cases ht
      exact ⟨rfl, rfl⟩
    · have hf := finishDownload_fields _ r t ht
      exact ⟨hf.2.1, hf.1⟩
  · rintro r fn (rfl | ⟨rfl, rfl⟩) hct hbind <;>
    · rcases hcd : r.contentDisposition with _ | cd
      · rw [hcd] at hbind; cases hbind
      · rw [hcd] at hbind
        simp only [Option.bind] at hbind
        simp [downloadCharacter, finishDownload, hcd, hbind, hct]
  · rintro r (rfl | ⟨rfl, rfl⟩) hct <;>
    · constructor
      · intro t ht
        simp only [downloadCharacter] at ht
        unfold finishDownload at ht
        split at ht
        · cases ht
        · split at ht
          · cases ht
          · rw [if_neg hct] at ht
            cases ht
            exact ⟨rfl, rfl, rfl⟩
      · intro fn hbind
        rcases hcd : r.contentDisposition with _ | cd
        · rw [hcd] at hbind; cases hbind
        · rw [hcd] at hbind
          simp only [Option.bind] at hbind
          simp [downloadCharacter, finishDownload, hcd, hbind, hct]

/-- Concrete instantiations of `download_fallback_contract`: both endpoints
failing, and a legacy-endpoint success of kind 'character' after a primary
failure, whose payload and extracted filename reach ingestion. -/
theorem download_fallback_contract_witness :
    downloadCharacter " alice/my-char " none none =
      some { primaryReqBody := jsTrim " alice/my-char ",
             legacyReqBody := some (jsTrim " alice/my-char "),
             failInfoCalls := 1, warningCalls := 0, ingested := none } ∧
    downloadCharacter "alice/my-char" none (some exampleDlSuccess) =
      some { primaryReqBody := jsTrim "alice/my-char",
             legacyReqBody := some (jsTrim "alice/my-char"),
             failInfoCalls := 0, warningCalls := 0,
             ingested := some ("PNGDATA", "alice.png") } :=
  ⟨(download_fallback_contract " alice/my-char " none none).1 rfl rfl,
   (download_fallback_contract "alice/my-char" none
      (some exampleDlSuccess)).2.2.2.1 exampleDlSuccess "alice.png"
      (Or.inr ⟨rfl, rfl⟩) rfl (by decide)⟩
